import Mathlib

/-!
Shallow embedding of the location-tracking coordinator of the repository
LocatorMultiSystem, together with the display-formatting helpers of its
tracker view component.

Sources embedded:
- src/Locator/services/LocationService.ts (class LocationService): the
  mutable instance fields become the structure `ServiceState`; each async
  method becomes a pure function that takes the state plus a record of the
  outcomes of the platform calls it performs (expo-location and
  expo-task-manager are external collaborators, so each `await`ed platform
  call is modelled by an `Except Unit _` outcome or a Bool failure flag
  supplied as an argument), and returns the new state together with the
  method's return value.  The process-wide TaskManager registration of the
  background task is a separate Bool (`bgRegistered`) threaded through the
  functions that query or change it.  A try/catch whose catch only logs is
  modelled by returning, from the throwing point, the state as mutated so
  far; methods therefore never "throw" (they are total), which mirrors the
  source's policy of never propagating platform errors to the caller.
- src/Locator/components/LocationTracker.tsx (function LocationTracker):
  the useState hooks become the structure `TrackerState`; the mount
  effect's cleanup closure and the formatters are embedded directly.

Numbers: the source stores latitudes/longitudes/accuracies in JS float64
and never computes with them (samples are moved, compared and formatted,
not added), so they are embedded as exact rationals (`Rat`); timestamps
are `Int` epoch millis.
-/

/-- LocationData (LocationService.ts lines 4-9): one position sample.
`accuracy` is `number | null` in the source, hence `Option Rat`. -/
structure LocationData where
  latitude : Rat
  longitude : Rat
  accuracy : Option Rat
  timestamp : Int
deriving DecidableEq

/-- The mutable instance fields of class LocationService (lines 28-31).
The opaque subscription handle and the callback reference are modelled by
`Nat` identities: the coordinator only stores, compares against null, and
hands them back, never inspects them. -/
structure ServiceState where
  isTracking : Bool
  currentLocation : Option LocationData
  locationSubscription : Option Nat
  onLocationUpdate : Option Nat
deriving DecidableEq

/-- The state of a freshly constructed LocationService (field initializers,
lines 28-31): not tracking, no sample, no subscription, no callback. -/
def initialService : ServiceState :=
  { isTracking := false
    currentLocation := none
    locationSubscription := none
    onLocationUpdate := none }

/-- Result of one permission request, as the source consumes it: the code
only tests `status !== 'granted'`, and the spec's PermissionState is
granted/denied after an explicit request. -/
inductive PermStatus where
  | granted
  | denied
deriving DecidableEq

/-- Outcomes of the two platform calls made by requestPermissions:
`Except.error ()` means the corresponding `await` threw. -/
structure PermEnv where
  foregroundOutcome : Except Unit PermStatus
  backgroundOutcome : Except Unit PermStatus

/-- requestPermissions (lines 42-66).  Requests foreground permission; a
non-granted status returns false.  Then requests background permission; a
non-granted status still returns true (foreground-only tracking remains
possible).  Any thrown platform error is caught and reported as false.
The method reads or writes no instance field, so the state is returned as
received. -/
def requestPermissions (s : ServiceState) (env : PermEnv) : Bool × ServiceState :=
  match env.foregroundOutcome with
  | Except.error _ => (false, s)
  | Except.ok foregroundStatus =>
    if foregroundStatus ≠ PermStatus.granted then
      (false, s)
    else
      match env.backgroundOutcome with
      | Except.error _ => (false, s)
      | Except.ok backgroundStatus =>
        if backgroundStatus ≠ PermStatus.granted then
          (true, s)
        else
          (true, s)

/-- getCurrentLocation (lines 68-87).  One-shot fetch: on success the built
LocationData is stored in `currentLocation` and returned; on a thrown
platform error the catch returns null and the state is untouched. -/
def getCurrentLocation (s : ServiceState) (outcome : Except Unit LocationData) :
    Option LocationData × ServiceState :=
  match outcome with
  | Except.ok loc => (some loc, { s with currentLocation := some loc })
  | Except.error _ => (none, s)

/-- Outcomes of the platform calls made by startTracking:
`watchOutcome` is the result of Location.watchPositionAsync (ok carries the
new subscription handle); `registeredQueryFails` / `startUpdatesFails` say
whether TaskManager.isTaskRegisteredAsync / Location.startLocationUpdatesAsync
throw. -/
structure StartEnv where
  watchOutcome : Except Unit Nat
  registeredQueryFails : Bool
  startUpdatesFails : Bool

/-- What startTracking leaves behind: its boolean return value, the service
state, the process-wide background-task registration, and whether the
Location.watchPositionAsync call was made at all (the effect trace needed
to speak about "opening a second subscription"). -/
structure StartResult where
  returnValue : Bool
  state : ServiceState
  backgroundRegistered : Bool
  watchOpened : Bool
deriving DecidableEq

/-- startTracking (lines 89-149).  If already tracking, returns true at
once (no platform call).  Otherwise stores the callback, opens the
foreground watch (a thrown watch-open error is caught by the outer catch
and returns false, with the callback already replaced), then inside an
inner try checks the background-task registration and registers it when
absent; a throw from either background call is swallowed by the inner
catch.  Finally sets isTracking and returns true. -/
def startTracking (s : ServiceState) (cb : Option Nat) (env : StartEnv)
    (bgRegistered : Bool) : StartResult :=
  if s.isTracking then
    { returnValue := true, state := s, backgroundRegistered := bgRegistered
      watchOpened := false }
  else
    let s1 := { s with onLocationUpdate := cb }
    match env.watchOutcome with
    | Except.error _ =>
      { returnValue := false, state := s1, backgroundRegistered := bgRegistered
        watchOpened := true }
    | Except.ok handle =>
      let s2 := { s1 with locationSubscription := some handle }
      let bgAfter :=
        if env.registeredQueryFails then bgRegistered
        else if bgRegistered then bgRegistered
        else if env.startUpdatesFails then bgRegistered
        else true
      { returnValue := true
        state := { s2 with isTracking := true }
        backgroundRegistered := bgAfter
        watchOpened := true }

/-- The delivery callback passed to Location.watchPositionAsync
(lines 105-119): each fired position is stored in `currentLocation`, and
if an `onLocationUpdate` callback is registered it is invoked with the
same LocationData.  The second component records the values the callback
was invoked with during this delivery (empty when no callback is set). -/
def deliverPosition (s : ServiceState) (loc : LocationData) :
    ServiceState × List LocationData :=
  let s1 := { s with currentLocation := some loc }
  if s1.onLocationUpdate.isSome then (s1, [loc]) else (s1, [])

/-- Folds `deliverPosition` over a list of emitted positions in emission
order, accumulating the callback-invocation log. -/
def deliverPositions (s : ServiceState) (locs : List LocationData) :
    ServiceState × List LocationData :=
  locs.foldl
    (fun acc loc =>
      let r := deliverPosition acc.1 loc
      (r.1, acc.2 ++ r.2))
    (s, [])

/-- Outcomes of the platform calls made by stopTracking: whether
subscription.remove(), TaskManager.isTaskRegisteredAsync and
Location.stopLocationUpdatesAsync throw. -/
structure StopEnv where
  removeFails : Bool
  registeredQueryFails : Bool
  stopUpdatesFails : Bool
deriving DecidableEq

/-- stopTracking (lines 151-177).  If not tracking, returns immediately.
Otherwise, inside one try: removes the foreground subscription if present
and nulls the field, queries the background-task registration, stops the
background task if registered, and only then clears `isTracking` and the
callback.  The catch only logs, so a throw at any of the three platform
calls leaves every assignment that comes after the throwing call undone:
in particular `isTracking` and `onLocationUpdate` are cleared only when
the whole teardown ran without error. -/
def stopTracking (s : ServiceState) (env : StopEnv) (bgRegistered : Bool) :
    ServiceState × Bool :=
  if !s.isTracking then
    (s, bgRegistered)
  else if s.locationSubscription.isSome && env.removeFails then
    (s, bgRegistered)
  else
    let s1 := { s with locationSubscription := none }
    if env.registeredQueryFails then
      (s1, bgRegistered)
    else if bgRegistered && env.stopUpdatesFails then
      (s1, bgRegistered)
    else
      ({ s1 with isTracking := false, onLocationUpdate := none }, false)

/-- getIsTracking (lines 179-181): pure accessor. -/
def getIsTracking (s : ServiceState) : Bool :=
  s.isTracking

/-- getCurrentLocationData (lines 183-185): pure accessor. -/
def getCurrentLocationData (s : ServiceState) : Option LocationData :=
  s.currentLocation

/-!
Embedding of the TrackerView component
(src/Locator/components/LocationTracker.tsx).
-/

/-- The useState hooks of the LocationTracker component (lines 19-23).
`hasPermission` is `boolean | null`, `watchSubscription` an opaque handle
modelled by a `Nat` identity, `lastUpdateTime` a display string. -/
structure TrackerState where
  isTracking : Bool
  currentLocation : Option LocationData
  hasPermission : Option Bool
  lastUpdateTime : String
  watchSubscription : Option Nat
deriving DecidableEq

/-- The initial values of the five useState hooks (lines 19-23). -/
def initialTrackerState : TrackerState :=
  { isTracking := false
    currentLocation := none
    hasPermission := none
    lastUpdateTime := ""
    watchSubscription := none }

/-- The cleanup function returned by the mount effect (lines 27-32):
`if (watchSubscription) { watchSubscription.remove(); }`.  It is a closure
over the `watchSubscription` binding of the render in which the effect
ran; given that captured value, it returns the list of handles it
releases. -/
def unmountCleanup (capturedWatchSubscription : Option Nat) : List Nat :=
  match capturedWatchSubscription with
  | some h => [h]
  | none => []

/-- The useEffect at lines 25-33 has an empty dependency array, so it runs
exactly once, after the initial render; the `watchSubscription` value its
cleanup closure captured is therefore the initial state's, i.e. null.
Later calls to setWatchSubscription create new state values for later
renders but never re-run the effect or rebuild the closure. -/
def mountCapturedSubscription : Option Nat :=
  initialTrackerState.watchSubscription

/-- The onPress handler of the Start confirmation (lines 66-110), run when
the user confirms and Location.watchPositionAsync resolves with `handle`:
sets watchSubscription and isTracking, then performs the initial one-shot
fetch; on fetch success stores the sample and the formatted time `now`,
on a thrown fetch error the catch shows an alert and leaves the already
set subscription and flag in place. -/
def startConfirmed (t : TrackerState) (handle : Nat)
    (initialFetch : Except Unit LocationData) (now : String) : TrackerState :=
  let t1 := { t with watchSubscription := some handle, isTracking := true }
  match initialFetch with
  | Except.ok loc => { t1 with currentLocation := some loc, lastUpdateTime := now }
  | Except.error _ => t1

/-!
Display formatters (lines 151-158).  JS `Number.prototype.toFixed(f)`
renders the magnitude rounded to the nearest multiple of 10^(-f), ties
away from zero toward larger n, with a leading "-" for negative inputs.
-/

/-- Left-pads a digit string with zeros to the given width. -/
def padZeros (digits : String) (width : Nat) : String :=
  String.mk (List.replicate (width - digits.length) '0') ++ digits

/-- JS Number.prototype.toFixed: fixed-point rendering with `fracDigits`
digits after the decimal point.  The sign of the value is taken first,
then the magnitude a/b is rounded half-up to the nearest integer multiple
of 10^(-fracDigits): n = floor(a/b * 10^fracDigits + 1/2), computed on
numerator and denominator as (2*a*10^fracDigits + b) / (2*b) in Nat
division. -/
def toFixed (value : Rat) (fracDigits : Nat) : String :=
  let a : Nat := value.num.natAbs
  let b : Nat := value.den
  let n : Nat := (2 * a * 10 ^ fracDigits + b) / (2 * b)
  let sign := if value.num < 0 then "-" else ""
  if fracDigits = 0 then
    sign ++ toString n
  else
    let p : Nat := 10 ^ fracDigits
    sign ++ toString (n / p) ++ "." ++ padZeros (toString (n % p)) fracDigits

/-- formatCoordinate (lines 151-153): `value.toFixed(precision)`; every
call site uses the default precision 6. -/
def formatCoordinate (value : Rat) (precision : Nat) : String :=
  toFixed value precision

/-- formatAccuracy (lines 155-158): null renders as "Unknown"; otherwise
the template literal prefixes the 1-decimal accuracy with the two
characters U+00C2 U+00B1 — the file stores the bytes c3 82 c2 b1, i.e.
"Â±", a double-encoded "±" — and appends "m". -/
def formatAccuracy (accuracy : Option Rat) : String :=
  match accuracy with
  | none => "Unknown"
  | some a => "\xC2\xB1" ++ toFixed a 1 ++ "m"

/-!
Concrete fixtures used by counterexamples and witnesses.  Rationals are
written with the explicit `Rat` constructor (numerator, denominator,
proofs) so that they evaluate by kernel reduction.
-/

/-- A coordinator that is tracking: subscription handle 7, callback 1. -/
def trackingService : ServiceState :=
  { isTracking := true
    currentLocation := none
    locationSubscription := some 7
    onLocationUpdate := some 1 }

/-- A start environment where every platform call succeeds; the watch
handle handed back is 7. -/
def envOk : StartEnv :=
  { watchOutcome := Except.ok 7
    registeredQueryFails := false
    startUpdatesFails := false }

/-- A start environment where the foreground watch opens (handle 7) but
Location.startLocationUpdatesAsync throws (e.g. background permission
denied). -/
def bgFailEnv : StartEnv :=
  { watchOutcome := Except.ok 7
    registeredQueryFails := false
    startUpdatesFails := true }

/-- A stop environment where TaskManager.isTaskRegisteredAsync throws. -/
def queryFailStopEnv : StopEnv :=
  { removeFails := false
    registeredQueryFails := true
    stopUpdatesFails := false }

/-- A stop environment where every teardown platform call succeeds. -/
def benignStopEnv : StopEnv :=
  { removeFails := false
    registeredQueryFails := false
    stopUpdatesFails := false }

/-- Permission outcomes: foreground granted, background denied. -/
def fgGrantedBgDenied : PermEnv :=
  { foregroundOutcome := Except.ok PermStatus.granted
    backgroundOutcome := Except.ok PermStatus.denied }

/-- The rational 37.123456789 (= 37123456789 / 10^9). -/
def sampleLatitude : Rat := ⟨37123456789, 1000000000, by decide, by decide⟩

/-- The rational 5.0. -/
def accuracyFive : Rat := ⟨5, 1, by decide, by decide⟩

/-- The sample (lat=37.0, lon=-122.0, acc=5.0, t=1000). -/
def sample1 : LocationData :=
  { latitude := ⟨37, 1, by decide, by decide⟩
    longitude := ⟨-122, 1, by decide, by decide⟩
    accuracy := some ⟨5, 1, by decide, by decide⟩
    timestamp := 1000 }

/-- The sample (lat=37.0001, lon=-122.0, acc=4.0, t=11000); 37.0001 is
370001 / 10^4. -/
def sample2 : LocationData :=
  { latitude := ⟨370001, 10000, by decide, by decide⟩
    longitude := ⟨-122, 1, by decide, by decide⟩
    accuracy := some ⟨4, 1, by decide, by decide⟩
    timestamp := 11000 }

/-- The teardown error condition of stopTracking on a tracking state: some
platform call of the try block throws — subscription.remove() on a present
subscription, the background-registration query, or the background
unregister on a registered task. -/
def teardownFailureB (s : ServiceState) (env : StopEnv) (bgRegistered : Bool) : Bool :=
  (s.locationSubscription.isSome && env.removeFails) ||
    env.registeredQueryFails || (bgRegistered && env.stopUpdatesFails)

/-- The condition under which requestPermissions reports failure: the
foreground request resolves denied, or a platform call made during the
run throws (the foreground request itself, or the background request —
reached only when foreground resolved granted). -/
def permRequestFails (env : PermEnv) : Prop :=
  env.foregroundOutcome = Except.ok PermStatus.denied ∨
    env.foregroundOutcome = Except.error () ∨
    (env.foregroundOutcome = Except.ok PermStatus.granted ∧
      env.backgroundOutcome = Except.error ())

/-!
Claim theorems.
-/

/-- C1, counterexample: with a tracking coordinator (subscription 7,
callback 1) and a teardown where the background-registration query
throws, the error is swallowed, but contrary to the claim `isTracking`
stays true and the callback stays stored. -/
theorem stopTracking_queryFailure_keeps_flags :
    (stopTracking trackingService queryFailStopEnv true).1.isTracking = true ∧
    (stopTracking trackingService queryFailStopEnv true).1.onLocationUpdate = some 1 := by
  decide

/-- C1, amended: on a tracking coordinator, stopTracking never rethrows a
teardown error (the function is total); but when a teardown platform call
throws, `isTracking` remains true and the stored callback is untouched —
the flags are cleared (and the callback dropped) only when the whole
teardown runs without error. -/
theorem stopTracking_teardown_error_flags (s : ServiceState) (env : StopEnv)
    (bg : Bool) (h : s.isTracking = true) :
    (teardownFailureB s env bg = true →
      (stopTracking s env bg).1.isTracking = true ∧
      (stopTracking s env bg).1.onLocationUpdate = s.onLocationUpdate) ∧
    (teardownFailureB s env bg = false →
      (stopTracking s env bg).1.isTracking = false ∧
      (stopTracking s env bg).1.onLocationUpdate = none) := by
  obtain ⟨it, cl, sub, cb⟩ := s
  obtain ⟨rf, qf, uf⟩ := env
  cases it
  · simp at h
  · cases sub <;> cases rf <;> cases qf <;> cases uf <;> cases bg <;>
      simp [stopTracking, teardownFailureB]

/-- C1, witness for the amended theorem at a concrete input. -/
theorem stopTracking_teardown_error_flags_witness :
    (teardownFailureB trackingService queryFailStopEnv true = true →
      (stopTracking trackingService queryFailStopEnv true).1.isTracking = true ∧
      (stopTracking trackingService queryFailStopEnv true).1.onLocationUpdate =
        trackingService.onLocationUpdate) ∧
    (teardownFailureB trackingService queryFailStopEnv true = false →
      (stopTracking trackingService queryFailStopEnv true).1.isTracking = false ∧
      (stopTracking trackingService queryFailStopEnv true).1.onLocationUpdate = none) :=
  stopTracking_teardown_error_flags trackingService queryFailStopEnv true rfl

/-- C2: after the user confirms Start and the watch resolves with handle 1
(the initial one-shot fetch failing changes nothing relevant), the
component is TRACKING and holds subscription 1 — yet the unmount cleanup,
whose closure captured the initial render's null `watchSubscription`
(empty useEffect dependency array), releases no handle at all. -/
theorem tracker_unmount_releases_nothing :
    (startConfirmed initialTrackerState 1 (Except.error ()) "").isTracking = true ∧
    (startConfirmed initialTrackerState 1 (Except.error ()) "").watchSubscription = some 1 ∧
    unmountCleanup mountCapturedSubscription = [] := by
  decide

/-- C3: startTracking is idempotent.  (1) On any already-tracking state it
returns true, changes nothing, and never reaches the watch-open call.
(2) From a non-tracking state whose watch-open succeeds with handle hd,
two consecutive calls both return true, only the first opens a watch, and
the surviving subscription is the first call's handle. -/
theorem startTracking_idempotent :
    (∀ (s : ServiceState) (cb : Option Nat) (env : StartEnv) (bg : Bool),
      s.isTracking = true →
        startTracking s cb env bg =
          { returnValue := true, state := s, backgroundRegistered := bg
            watchOpened := false }) ∧
    (∀ (s : ServiceState) (cb cb2 : Option Nat) (env env2 : StartEnv)
        (bg : Bool) (hd : Nat),
      s.isTracking = false → env.watchOutcome = Except.ok hd →
        (startTracking s cb env bg).returnValue = true ∧
        (startTracking s cb env bg).watchOpened = true ∧
        (startTracking (startTracking s cb env bg).state cb2 env2
          (startTracking s cb env bg).backgroundRegistered).returnValue = true ∧
        (startTracking (startTracking s cb env bg).state cb2 env2
          (startTracking s cb env bg).backgroundRegistered).watchOpened = false ∧
        (startTracking (startTracking s cb env bg).state cb2 env2
          (startTracking s cb env bg).backgroundRegistered).state.locationSubscription =
          some hd) := by
  constructor
  · intro s cb env bg h
    simp [startTracking, h]
  · intro s cb cb2 env env2 bg hd h hw
    simp [startTracking, h, hw]

/-- C3, witness: both consecutive calls from the fresh coordinator with a
successful platform environment. -/
theorem startTracking_idempotent_witness :
    (startTracking initialService (some 1) envOk false).returnValue = true ∧
    (startTracking initialService (some 1) envOk false).watchOpened = true ∧
    (startTracking (startTracking initialService (some 1) envOk false).state
      (some 2) envOk
      (startTracking initialService (some 1) envOk false).backgroundRegistered).returnValue =
      true ∧
    (startTracking (startTracking initialService (some 1) envOk false).state
      (some 2) envOk
      (startTracking initialService (some 1) envOk false).backgroundRegistered).watchOpened =
      false ∧
    (startTracking (startTracking initialService (some 1) envOk false).state
      (some 2) envOk
      (startTracking initialService (some 1) envOk false).backgroundRegistered).state.locationSubscription =
      some 7 :=
  startTracking_idempotent.2 initialService (some 1) (some 2) envOk envOk false 7 rfl rfl

/-- C4: requestPermissions returns false exactly when the foreground
request resolves denied or a platform call it makes throws; when
foreground resolves granted and background resolves denied it still
returns true.  (It never throws: the embedding is a total function into
Bool, mirroring the top-level try/catch.) -/
theorem requestPermissions_false_iff (s : ServiceState) (env : PermEnv) :
    ((requestPermissions s env).1 = false ↔ permRequestFails env) ∧
    (env.foregroundOutcome = Except.ok PermStatus.granted →
      env.backgroundOutcome = Except.ok PermStatus.denied →
      (requestPermissions s env).1 = true) := by
  obtain ⟨fg, bg⟩ := env
  rcases fg with ⟨⟩ | st
  · simp [requestPermissions, permRequestFails]
  · rcases bg with ⟨⟩ | st2
    · cases st <;> simp [requestPermissions, permRequestFails]
    · cases st <;> cases st2 <;> simp [requestPermissions, permRequestFails]

/-- C4, witness: foreground granted, background denied gives true. -/
theorem requestPermissions_false_iff_witness :
    (requestPermissions initialService fgGrantedBgDenied).1 = true :=
  (requestPermissions_false_iff initialService fgGrantedBgDenied).2 rfl rfl

/-- C5: a failed one-shot fetch returns null and leaves the whole state —
in particular the stored sample — unchanged; a successful fetch stores
and returns the fetched sample. -/
theorem getCurrentLocation_spec (s : ServiceState) :
    (∀ e : Unit, getCurrentLocation s (Except.error e) = (none, s)) ∧
    (∀ loc : LocationData,
      getCurrentLocation s (Except.ok loc) =
        (some loc, { s with currentLocation := some loc })) := by
  constructor <;> intro x <;> rfl

/-- C5, witness: a failed fetch on a coordinator holding sample1 keeps
sample1. -/
theorem getCurrentLocation_spec_witness :
    getCurrentLocation { trackingService with currentLocation := some sample1 }
      (Except.error ()) =
      (none, { trackingService with currentLocation := some sample1 }) :=
  (getCurrentLocation_spec { trackingService with currentLocation := some sample1 }).1 ()

/-- C6: from a non-tracking state with no background task registered, if
the foreground watch opens with handle hd but either background call (the
registration query or the registration itself, e.g. on denied background
permission) throws, startTracking still returns true, sets isTracking,
and leaves no background task registered. -/
theorem startTracking_background_failure_swallowed (s : ServiceState)
    (cb : Option Nat) (env : StartEnv) (hd : Nat)
    (h : s.isTracking = false)
    (hw : env.watchOutcome = Except.ok hd)
    (hbg : env.registeredQueryFails = true ∨ env.startUpdatesFails = true) :
    (startTracking s cb env false).returnValue = true ∧
    (startTracking s cb env false).state.isTracking = true ∧
    (startTracking s cb env false).backgroundRegistered = false := by
  obtain ⟨watch, qf, uf⟩ := env
  rcases hbg with hq | hu
  · cases hq
    simp_all [startTracking]
  · cases hu
    cases qf <;> simp_all [startTracking]

/-- C6, witness: fresh coordinator, watch opens with handle 7, background
registration throws. -/
theorem startTracking_background_failure_swallowed_witness :
    (startTracking initialService (some 1) bgFailEnv false).returnValue = true ∧
    (startTracking initialService (some 1) bgFailEnv false).state.isTracking = true ∧
    (startTracking initialService (some 1) bgFailEnv false).backgroundRegistered = false :=
  startTracking_background_failure_swallowed initialService (some 1) bgFailEnv 7
    rfl rfl (Or.inr rfl)

/-- C7: the watch delivery callback stores each fired sample and invokes
the registered callback with it; concretely, starting the fresh
coordinator with callback 1 and then delivering sample1 and sample2
leaves `currentLocation` equal to sample2 and invokes the callback
exactly twice, with sample1 then sample2. -/
theorem watch_delivery_updates_and_invokes :
    (∀ (s : ServiceState) (loc : LocationData),
      s.onLocationUpdate.isSome = true →
        deliverPosition s loc = ({ s with currentLocation := some loc }, [loc])) ∧
    ((deliverPositions (startTracking initialService (some 1) envOk false).state
        [sample1, sample2]).1.currentLocation = some sample2 ∧
      (deliverPositions (startTracking initialService (some 1) envOk false).state
        [sample1, sample2]).2 = [sample1, sample2]) := by
  refine ⟨fun s loc h => ?_, by decide, by decide⟩
  simp [deliverPosition, h]

/-- C7, witness: one delivery on a tracking coordinator with callback 1. -/
theorem watch_delivery_updates_and_invokes_witness :
    deliverPosition trackingService sample1 =
      ({ trackingService with currentLocation := some sample1 }, [sample1]) :=
  watch_delivery_updates_and_invokes.1 trackingService sample1 rfl

/-- C8: on a non-tracking coordinator, stopTracking is a no-op: the whole
state and the background registration are returned unchanged, whatever
the platform outcomes would have been. -/
theorem stopTracking_noop_when_not_tracking (s : ServiceState) (env : StopEnv)
    (bg : Bool) (h : s.isTracking = false) :
    stopTracking s env bg = (s, bg) := by
  simp [stopTracking, h]

/-- C8, witness: stop before any start on the fresh coordinator. -/
theorem stopTracking_noop_when_not_tracking_witness :
    stopTracking initialService benignStopEnv false = (initialService, false) :=
  stopTracking_noop_when_not_tracking initialService benignStopEnv false rfl

/-- C9: latitude 37.123456789 renders as "37.123457" and an absent
accuracy as "Unknown", as claimed; but accuracy 5.0 renders as
"\xC2\xB15.0m" (the source's template literal carries the mojibake bytes
c3 82 c2 b1, i.e. "Â±"), not as the claimed "\xB15.0m" ("±5.0m"). -/
theorem display_formatting_eval :
    formatCoordinate sampleLatitude 6 = "37.123457" ∧
    formatAccuracy none = "Unknown" ∧
    formatAccuracy (some accuracyFive) = "\xC2\xB15.0m" ∧
    formatAccuracy (some accuracyFive) ≠ "\xB15.0m" := by
  decide

/-- C10: requestPermissions leaves the coordinator state untouched for
every permission/error outcome (the method reads and writes no instance
field). -/
theorem requestPermissions_preserves_state (s : ServiceState) (env : PermEnv) :
    (requestPermissions s env).2 = s := by
  obtain ⟨fg, bg⟩ := env
  rcases fg with ⟨⟩ | st
  · rfl
  · rcases bg with ⟨⟩ | st2
    · cases st <;> rfl
    · cases st <;> cases st2 <;> rfl

/-- C10, witness: a concrete outcome on the fresh coordinator. -/
theorem requestPermissions_preserves_state_witness :
    (requestPermissions initialService fgGrantedBgDenied).2 = initialService :=
  requestPermissions_preserves_state initialService fgGrantedBgDenied
